import Mathlib

/-
Verification of the sdcore-nrf operator charm and its fiveg_nrf relation
library.  The Python sources are shallowly embedded: Juju relation databags
become association lists from string keys to string values, pebble/container
observables become record fields, and exceptions become explicit error values
threaded through results.
-/

namespace SdcoreNrf

/-- Exceptions that the embedded code can raise. -/
inductive PyError where
  | runtimeError (msg : String)
  | valueError (msg : String)
  | typeError (msg : String)
  | attributeError (msg : String)
deriving DecidableEq

/-- A Python value as it reaches the pydantic validator: either a string or a
string-to-string dict (the only shapes occurring in this code base). -/
inductive PyValue where
  | str (s : String)
  | dict (d : List (String × String))
deriving DecidableEq

/-- Characters that terminate the host component of a URL. -/
def isHostChar (c : Char) : Bool :=
  c ≠ '/' && c ≠ ':' && c ≠ '?' && c ≠ '#'

/-- Strips the first list from the front of the second, returning the rest on
success. -/
def stripChars : List Char → List Char → Option (List Char)
  | [], s => some s
  | _ :: _, [] => none
  | p :: ps, c :: cs => if p = c then stripChars ps cs else none

/-- Whether the remainder of a URL after its scheme begins with a nonempty
host component. -/
def hostNonempty : List Char → Bool
  | [] => false
  | c :: _ => isHostChar c

/-- Models pydantic AnyHttpUrl validation of a string: the value must parse as
an absolute URL whose scheme is http or https and whose host is nonempty. -/
def urlIsValid (s : String) : Bool :=
  match stripChars "http://".data s.data with
  | some rest => hostNonempty rest
  | none =>
    match stripChars "https://".data s.data with
    | some rest => hostNonempty rest
    | none => false

/-- Looks up a key in a databag. -/
def lookupKey (d : List (String × String)) (k : String) : Option String :=
  match d with
  | [] => none
  | (k2, v) :: rest => if k2 = k then some v else lookupKey rest k

/-- dict.update with a single key: replaces the binding of the key if present,
appends it otherwise. -/
def updateKey (d : List (String × String)) (k v : String) : List (String × String) :=
  match lookupKey d k with
  | some _ => d.map (fun p => if p.1 = k then (k, v) else p)
  | none => d ++ [(k, v)]

/-- One relation under a channel: its id and the provider-side
application-scoped databag. -/
structure Relation where
  id : Nat
  appData : List (String × String)
deriving DecidableEq

/-- NRFRequires._relation_data_is_valid, the second definition in the class
body, which shadows the earlier dict-taking definition: it builds
ProviderSchema(app=MyProviderAppData(url=v)) and so validates its argument as
an AnyHttpUrl.  A non-string argument (such as a dict) fails pydantic string
validation unconditionally. -/
def relation_data_is_valid (v : PyValue) : Bool :=
  match v with
  | .str s => urlIsValid s
  | .dict _ => false

/-- MyProviderAppData.parse_obj on a databag dict (the validation performed by
the first, shadowed definition of NRFRequires._relation_data_is_valid): the
dict must carry a key url whose value is a valid AnyHttpUrl. -/
def schema_validates (d : List (String × String)) : Bool :=
  match lookupKey d "url" with
  | some u => urlIsValid u
  | none => false

/-- Outcome of the requirer-side relation-changed handler. -/
inductive RequirerOutcome where
  | noRemoteApp
  | invalidData
  | keyError
  | emitted (url : String)
deriving DecidableEq

/-- NRFRequires._on_relation_changed: if the remote application is absent,
logs and returns; otherwise validates dict(remote_app_relation_data) through
the (shadowing, string-typed) _relation_data_is_valid and, when valid, emits
nrf_available with the url entry of the databag. -/
def on_relation_changed (remoteApp : Option String)
    (databag : List (String × String)) : RequirerOutcome :=
  match remoteApp with
  | none => .noRemoteApp
  | some _ =>
    if relation_data_is_valid (.dict databag) then
      match lookupKey databag "url" with
      | some u => .emitted u
      | none => .keyError
    else .invalidData

/-- NRFProvides._relation_data_is_valid: builds
ProviderSchema(app=MyProviderAppData(url=url)) and reports whether pydantic
accepts the url string. -/
def provider_relation_data_is_valid (url : String) : Bool :=
  urlIsValid url

/-- Result of a provider-side write operation: the relations after the call
and the exception raised, if any.  On an error path the relations are exactly
the relations before the call. -/
structure ProviderResult where
  relations : List Relation
  error : Option PyError
deriving DecidableEq

/-- NRFProvides.set_nrf_information: raises RuntimeError for a non-leader,
raises RuntimeError when the channel has no relations, raises ValueError for
an invalid url, and otherwise writes the url into the application databag of
every relation under the channel. -/
def set_nrf_information (isLeader : Bool) (relationName : String)
    (relations : List Relation) (url : String) : ProviderResult :=
  if isLeader = false then
    { relations := relations,
      error := some (.runtimeError "Unit must be leader to set application relation data.") }
  else if relations.isEmpty then
    { relations := relations,
      error := some (.runtimeError ("Relation " ++ relationName ++ " not created yet.")) }
  else if provider_relation_data_is_valid url = false then
    { relations := relations, error := some (.valueError ("Invalid url: " ++ url)) }
  else
    { relations := relations.map (fun r => { r with appData := updateKey r.appData "url" url }),
      error := none }

/-- NRFOperatorCharm._publish_nrf_info_for_all_requirers: returns silently for
a non-leader or when no fiveg-nrf relation exists; otherwise calls
nrf_provider.set_nrf_information_in_all_relations(url), a method that does not
exist on NRFProvides in this version of the library, so Python raises
AttributeError. -/
def publish_nrf_info_for_all_requirers (isLeader : Bool)
    (relations : List Relation) (url : String) : ProviderResult :=
  if isLeader = false then { relations := relations, error := none }
  else if relations.isEmpty then { relations := relations, error := none }
  else
    { relations := relations,
      error := some (.attributeError
        "NRFProvides object has no attribute set_nrf_information_in_all_relations") }

/-- NRFOperatorCharm._nrf_service_is_running: false when the container is not
reachable or pebble knows no such service (ModelError); otherwise the
service's running flag. -/
def nrf_service_is_running (canConnect : Bool) (service : Option Bool) : Bool :=
  if canConnect = false then false
  else
    match service with
    | none => false
    | some running => running

/-- Result of the fiveg-nrf relation-joined handler. -/
structure JoinResult where
  relations : List Relation
  deferred : Bool
  raised : Option PyError
deriving DecidableEq

/-- NRFOperatorCharm._on_fiveg_nrf_relation_joined: returns for a non-leader,
returns when the NRF service is not running, and otherwise calls
set_nrf_information(url=NRF_URL, relation_id=event.relation.id).  The library
function accepts no relation_id parameter, so the call raises TypeError before
any databag is touched. -/
def on_fiveg_nrf_relation_joined (isLeader canConnect : Bool)
    (service : Option Bool) (relations : List Relation) : JoinResult :=
  if isLeader = false then { relations := relations, deferred := false, raised := none }
  else if nrf_service_is_running canConnect service = false then
    { relations := relations, deferred := false, raised := none }
  else
    { relations := relations, deferred := false,
      raised := some (.typeError
        "set_nrf_information got an unexpected keyword argument relation_id") }

/-- Takes the characters of a string up to the first comma: the first entry of
uris.split(",") in Python. -/
def takeUntilComma : List Char → List Char
  | [] => []
  | c :: cs => if c = ',' then [] else c :: takeUntilComma cs

/-- NRFOperatorCharm._get_database_uri: the first comma-separated entry of the
uris field of the database relation data, or the empty string when the key is
absent (KeyError caught). -/
def get_database_uri (info : List (String × String)) : String :=
  match lookupKey info "uris" with
  | none => ""
  | some u => String.mk (takeUntilComma u.data)

/-- Modelled from the spec: the Jinja template file src/templates/nrfcfg.yaml.j2
is not in the repository snapshot.  Per the spec the rendered config is a
structured document over the database name, database URL, NRF IP and SBI port
(containing, e.g., a MongoDBUrl line), and rendering is a pure function of
those four inputs. -/
def render_config (database_name database_url nrf_ip : String)
    (nrf_sbi_port : Nat) : String :=
  "configuration:\n  MongoDBName: " ++ database_name ++
  "\n  MongoDBUrl: " ++ database_url ++
  "\n  nrfIP: " ++ nrf_ip ++
  "\n  sbiPort: " ++ toString nrf_sbi_port ++
  "\nlogger:\n  NRF:\n    debugLevel: info\n    ReportCaller: false"

/-- One pebble service specification. -/
structure ServiceSpec where
  override : String
  startup : String
  command : String
  environment : List (String × String)
deriving DecidableEq

/-- NRFOperatorCharm._pebble_layer services: the fixed desired layer. -/
def nrf_layer_services : List (String × ServiceSpec) :=
  [("nrf",
    { override := "replace",
      startup := "enabled",
      command := "/bin/nrf --nrfcfg /etc/nrf/nrfcfg.yaml",
      environment :=
        [("GRPC_GO_LOG_VERBOSITY_LEVEL", "99"),
         ("GRPC_GO_LOG_SEVERITY_LEVEL", "info"),
         ("GRPC_TRACE", "all"),
         ("GRPC_VERBOSITY", "debug"),
         ("MANAGED_BY_CONFIG_POD", "true")] })]

/-- Observable state of one reconciliation pass of NRFOperatorCharm. -/
structure CharmState where
  canConnect : Bool
  databaseRelationCreated : Bool
  databaseAvailable : Bool
  databaseInfo : List (String × String)
  storageAttached : Bool
  podIp : Option String
  configFile : Option String
  planServices : List (String × ServiceSpec)
  isLeader : Bool
  nrfRelations : List Relation
deriving DecidableEq

/-- The unit status a reconciliation pass reports.  retained means the handler
raised before assigning a status, so the previously reported status stands. -/
inductive UnitStatus where
  | active
  | waiting (msg : String)
  | blocked (msg : String)
  | retained
deriving DecidableEq

/-- Result of one reconciliation pass: the reported status, whether the event
was deferred, whether the config file was pushed, whether the workload was
restarted, the config file afterwards, the fiveg-nrf relations afterwards, and
the exception that escaped the handler, if any. -/
structure ReconcileResult where
  status : UnitStatus
  deferred : Bool
  pushed : Bool
  restarted : Bool
  configFile : Option String
  nrfRelations : List Relation
  raised : Option PyError
deriving DecidableEq

/-- NRFOperatorCharm._configure_nrf: the readiness chain, then config
generation (_generate_config_file), workload configuration
(_configure_workload) and URL publication
(_publish_nrf_info_for_all_requirers). -/
def configure_nrf (s : CharmState) : ReconcileResult :=
  if s.canConnect = false then
    { status := .waiting "Waiting for container to be ready", deferred := true,
      pushed := false, restarted := false, configFile := s.configFile,
      nrfRelations := s.nrfRelations, raised := none }
  else if s.databaseRelationCreated = false then
    { status := .blocked "Waiting for database relation to be created", deferred := false,
      pushed := false, restarted := false, configFile := s.configFile,
      nrfRelations := s.nrfRelations, raised := none }
  else if s.databaseAvailable = false then
    { status := .waiting "Waiting for the database to be available", deferred := false,
      pushed := false, restarted := false, configFile := s.configFile,
      nrfRelations := s.nrfRelations, raised := none }
  else if get_database_uri s.databaseInfo = "" then
    { status := .waiting "Waiting for database URI", deferred := true,
      pushed := false, restarted := false, configFile := s.configFile,
      nrfRelations := s.nrfRelations, raised := none }
  else if s.storageAttached = false then
    { status := .waiting "Waiting for storage to be attached", deferred := true,
      pushed := false, restarted := false, configFile := s.configFile,
      nrfRelations := s.nrfRelations, raised := none }
  else
    match s.podIp with
    | none =>
      { status := .waiting "Waiting for pod IP address to be available", deferred := true,
        pushed := false, restarted := false, configFile := s.configFile,
        nrfRelations := s.nrfRelations, raised := none }
    | some ip =>
      let content := render_config "free5gc" (get_database_uri s.databaseInfo) ip 29510
      let needsRestart := if s.configFile = some content then false else true
      let newFile := if s.configFile = some content then s.configFile else some content
      let restart := if s.planServices = nrf_layer_services then needsRestart else true
      let pub := publish_nrf_info_for_all_requirers s.isLeader s.nrfRelations
        "http://nrf:29510"
      { status := if pub.error = none then .active else .retained,
        deferred := false, pushed := needsRestart,
        restarted := restart, configFile := newFile,
        nrfRelations := pub.relations, raised := pub.error }


/-- Concrete reconciliation state for claim C3: the container is unreachable
and the database relation is absent. -/
def c3_cex_state : CharmState :=
  { canConnect := false, databaseRelationCreated := false, databaseAvailable := false,
    databaseInfo := [], storageAttached := false, podIp := none, configFile := none,
    planServices := [], isLeader := false, nrfRelations := [] }

/-- Concrete reconciliation state for claim C3: the container is reachable and
the database relation is absent. -/
def c3_wit_state : CharmState :=
  { canConnect := true, databaseRelationCreated := false, databaseAvailable := false,
    databaseInfo := [], storageAttached := false, podIp := none, configFile := none,
    planServices := [], isLeader := false, nrfRelations := [] }

/-- Claim C1 (code-bug evidence): a provider databag carrying a
schema-valid url (the very example given in the library docstring) does not
make the relation-changed handler emit nrf_available: the handler passes the
whole dict to the string-typed validator, which rejects it, so the handler
returns on the invalid-data path. -/
theorem C1_valid_payload_not_emitted :
    schema_validates [("url", "https://nrf-example.com:1234")] = true ∧
    on_relation_changed (some "nrf") [("url", "https://nrf-example.com:1234")] =
      RequirerOutcome.invalidData := by decide

/-- Claim C2: publishing a string that is not a valid absolute URL, from the
leader with at least one relation under the channel, raises ValueError naming
the offending value and leaves every relation databag exactly as before. -/
theorem C2_invalid_url_publish_rejected (relationName url : String) (rs : List Relation)
    (hinv : urlIsValid url = false) (hr : rs ≠ []) :
    set_nrf_information true relationName rs url =
      { relations := rs, error := some (.valueError ("Invalid url: " ++ url)) } := by
  obtain ⟨a, t, rfl⟩ := List.exists_cons_of_ne_nil hr
  unfold set_nrf_information
  simp [provider_relation_data_is_valid, hinv]

/-- Witness for claim C2 at url "not a url" with one relation. -/
theorem C2_invalid_url_publish_rejected_witness :
    set_nrf_information true "fiveg-nrf" [⟨0, []⟩] "not a url" =
      { relations := [⟨0, []⟩],
        error := some (.valueError ("Invalid url: " ++ "not a url")) } :=
  C2_invalid_url_publish_rejected "fiveg-nrf" "not a url" [⟨0, []⟩] (by decide) (by decide)

/-- Counterexample to claim C3 as stated: with the database relation absent
but the container unreachable, the reported status is Waiting for the
container, not Blocked, so the absence of the database relation does not
yield Blocked regardless of any other state. -/
theorem C3_counterexample :
    c3_cex_state.databaseRelationCreated = false ∧
    (configure_nrf c3_cex_state).status ≠
      UnitStatus.blocked "Waiting for database relation to be created" ∧
    (configure_nrf c3_cex_state).status =
      UnitStatus.waiting "Waiting for container to be ready" := by decide

/-- Claim C3 (amended): in every reconciliation pass in which the container is
reachable and the database relation is absent, the status is Blocked with
reason "Waiting for database relation to be created" and no config file write
is attempted, regardless of any other state. -/
theorem C3_blocked_when_no_db_relation (s : CharmState) (hc : s.canConnect = true)
    (hr : s.databaseRelationCreated = false) :
    (configure_nrf s).status =
      UnitStatus.blocked "Waiting for database relation to be created" ∧
    (configure_nrf s).pushed = false := by
  unfold configure_nrf
  simp [hc, hr]

/-- Witness for claim C3 at a concrete reachable-container state. -/
theorem C3_blocked_when_no_db_relation_witness :
    (configure_nrf c3_wit_state).status =
      UnitStatus.blocked "Waiting for database relation to be created" ∧
    (configure_nrf c3_wit_state).pushed = false :=
  C3_blocked_when_no_db_relation c3_wit_state rfl rfl

/-- Concrete reconciliation state for claim C4: all readiness conditions hold,
the stored config equals the freshly rendered content, but the current pebble
plan differs from the desired layer. -/
def c4_cex_state : CharmState :=
  { canConnect := true, databaseRelationCreated := true, databaseAvailable := true,
    databaseInfo := [("uris", "http://dummy")], storageAttached := true,
    podIp := some "1.1.1.1",
    configFile := some (render_config "free5gc" "http://dummy" "1.1.1.1" 29510),
    planServices := [], isLeader := false, nrfRelations := [] }

/-- Concrete reconciliation state for claim C4: all readiness conditions hold,
the stored config equals the freshly rendered content, and the current pebble
plan equals the desired layer. -/
def c4_wit_state : CharmState :=
  { canConnect := true, databaseRelationCreated := true, databaseAvailable := true,
    databaseInfo := [("uris", "http://dummy")], storageAttached := true,
    podIp := some "1.1.1.1",
    configFile := some (render_config "free5gc" "http://dummy" "1.1.1.1" 29510),
    planServices := nrf_layer_services, isLeader := false, nrfRelations := [] }

/-- Counterexample to claim C4 as stated: with the stored config byte-identical
to the freshly rendered content, no write occurs, but a restart is still
triggered because the current pebble plan differs from the desired layer. -/
theorem C4_counterexample :
    (configure_nrf c4_cex_state).pushed = false ∧
    (configure_nrf c4_cex_state).restarted = true := by decide

/-- Claim C4 (amended): in every reconciliation pass that reaches config
generation, a stored config byte-identical to the freshly rendered content
means no filesystem write occurs, and no restart is triggered provided the
current pebble plan also equals the desired layer; an absent config file
counts as non-matching, so a write and a restart do occur. -/
theorem C4_config_write_skip (s : CharmState) (ip : String)
    (hc : s.canConnect = true) (hr : s.databaseRelationCreated = true)
    (ha : s.databaseAvailable = true) (hu : get_database_uri s.databaseInfo ≠ "")
    (hs : s.storageAttached = true) (hip : s.podIp = some ip) :
    (s.configFile = some (render_config "free5gc" (get_database_uri s.databaseInfo) ip 29510) →
      (configure_nrf s).pushed = false ∧
      (s.planServices = nrf_layer_services → (configure_nrf s).restarted = false)) ∧
    (s.configFile = none →
      (configure_nrf s).pushed = true ∧ (configure_nrf s).restarted = true) := by
  unfold configure_nrf
  refine ⟨fun hmatch => ?_, fun habsent => ?_⟩
  · simp [hc, hr, ha, hu, hs, hip, hmatch]
  · simp [hc, hr, ha, hu, hs, hip, habsent]

/-- Witness for claim C4 at a concrete state with a matching stored config and
a matching pebble plan. -/
theorem C4_config_write_skip_witness :
    (configure_nrf c4_wit_state).pushed = false ∧
    (configure_nrf c4_wit_state).restarted = false := by
  have h := C4_config_write_skip c4_wit_state "1.1.1.1" rfl rfl rfl (by decide) rfl rfl
  exact ⟨(h.1 (by decide)).1, (h.1 (by decide)).2 rfl⟩

/-- Claim C5 (code-bug evidence): with two relations under the channel, a
successful publish writes the url into the application databag of both
relations, not only into the one named by the caller. -/
theorem C5_publish_writes_every_relation :
    (set_nrf_information true "fiveg-nrf" [⟨0, []⟩, ⟨1, []⟩] "http://nrf:29510").relations =
      [⟨0, [("url", "http://nrf:29510")]⟩, ⟨1, [("url", "http://nrf:29510")]⟩] := by decide

/-- Claim C6: broadcasting a valid URL over a channel with zero active
relations is a silent no-op: no exception is raised and no databag is
modified, whether or not the unit is leader. -/
theorem C6_broadcast_empty_channel_noop (isLeader : Bool) (url : String)
    (hv : urlIsValid url = true) :
    publish_nrf_info_for_all_requirers isLeader [] url =
      { relations := [], error := none } := by
  cases isLeader <;> rfl

/-- Witness for claim C6 at the leader with url "http://nrf:29510". -/
theorem C6_broadcast_empty_channel_noop_witness :
    publish_nrf_info_for_all_requirers true [] "http://nrf:29510" =
      { relations := [], error := none } :=
  C6_broadcast_empty_channel_noop true "http://nrf:29510" (by decide)

/-- Claim C7: a publish attempted by a non-leader unit raises RuntimeError and
leaves every relation databag exactly as before. -/
theorem C7_nonleader_publish_rejected (relationName url : String) (rs : List Relation) :
    set_nrf_information false relationName rs url =
      { relations := rs,
        error := some (.runtimeError "Unit must be leader to set application relation data.") } :=
  rfl

/-- Concrete reconciliation state for claim C8: container reachable, database
relation created, database not yet marked available. -/
def c8_state : CharmState :=
  { canConnect := true, databaseRelationCreated := true, databaseAvailable := false,
    databaseInfo := [], storageAttached := false, podIp := none, configFile := none,
    planServices := [], isLeader := false, nrfRelations := [] }

/-- Counterexample to claim C8 as stated: in the waiting-for-dependency state
the handler reports Waiting but does not defer the triggering event. -/
theorem C8_counterexample :
    c8_state.databaseRelationCreated = true ∧
    c8_state.databaseAvailable = false ∧
    (configure_nrf c8_state).status =
      UnitStatus.waiting "Waiting for the database to be available" ∧
    (configure_nrf c8_state).deferred = false := by decide

/-- Claim C8 (amended): in every reconciliation pass in which the container is
reachable, the database relation exists but the database is not yet marked
available, the status is Waiting and the handler returns without deferring the
event; re-delivery relies on the database-created event re-running the chain. -/
theorem C8_waiting_without_defer (s : CharmState) (hc : s.canConnect = true)
    (hr : s.databaseRelationCreated = true) (ha : s.databaseAvailable = false) :
    (configure_nrf s).status =
      UnitStatus.waiting "Waiting for the database to be available" ∧
    (configure_nrf s).deferred = false := by
  unfold configure_nrf
  simp [hc, hr, ha]

/-- Witness for claim C8 at the concrete waiting-for-dependency state. -/
theorem C8_waiting_without_defer_witness :
    (configure_nrf c8_state).status =
      UnitStatus.waiting "Waiting for the database to be available" ∧
    (configure_nrf c8_state).deferred = false :=
  C8_waiting_without_defer c8_state rfl rfl rfl

/-- Claim C9: config rendering is deterministic: two calls with identical
database name, database URI, NRF IP and port inputs produce byte-identical
output. -/
theorem C9_render_deterministic (n1 u1 i1 : String) (p1 : Nat)
    (n2 u2 i2 : String) (p2 : Nat)
    (hn : n1 = n2) (hu : u1 = u2) (hi : i1 = i2) (hp : p1 = p2) :
    render_config n1 u1 i1 p1 = render_config n2 u2 i2 p2 := by
  rw [hn, hu, hi, hp]

/-- Witness for claim C9 at a concrete input quadruple. -/
theorem C9_render_deterministic_witness :
    render_config "free5gc" "http://dummy" "1.1.1.1" 29510 =
      render_config "free5gc" "http://dummy" "1.1.1.1" 29510 :=
  C9_render_deterministic "free5gc" "http://dummy" "1.1.1.1" 29510
    "free5gc" "http://dummy" "1.1.1.1" 29510 rfl rfl rfl rfl

/-- Claim C10: when the fiveg-nrf relation is joined while the unit is not
leader or while the NRF service is not running, the handler returns without
modifying any databag, without deferring and without raising. -/
theorem C10_join_noop_when_not_ready (isLeader canConnect : Bool)
    (service : Option Bool) (rs : List Relation)
    (h : isLeader = false ∨ nrf_service_is_running canConnect service = false) :
    on_fiveg_nrf_relation_joined isLeader canConnect service rs =
      { relations := rs, deferred := false, raised := none } := by
  unfold on_fiveg_nrf_relation_joined
  rcases h with h | h
  · simp [h]
  · simp [h]

/-- Witness for claim C10 at a leader unit whose container is unreachable. -/
theorem C10_join_noop_when_not_ready_witness :
    on_fiveg_nrf_relation_joined true false none [⟨3, []⟩] =
      { relations := [⟨3, []⟩], deferred := false, raised := none } :=
  C10_join_noop_when_not_ready true false none [⟨3, []⟩] (Or.inr rfl)


end SdcoreNrf
